import Mathlib

/-!
Verification of the Alina voice-assistant pipeline of this repository
(backend/alina_server.py, backend/assistant/alina.py,
backend/elevenlabs_client.py).

Shallow embedding conventions:
- the three capability adapters (speech-to-text, language model,
  text-to-speech) are opaque parameters returning Except values;
- cancellation is cooperative and is observed by the pipeline exactly at
  the two checkpoint reads of cancel_token.cancelled, so a run is modelled
  by the two boolean values those reads observe (c1 at the post-STT
  checkpoint, c2 at the post-LLM checkpoint);
- byte strings are List Nat; wall-clock timings and base64 encoding are
  not modelled (the audio_base64 field is empty iff the byte string is);
- history dictionaries are Msg values (role plus content).
-/

namespace Alina

/-- Decidable equality for Except outcomes, so that concrete runs of the
embedded pipeline can be evaluated inside proofs. -/
instance exceptDecEq {e a : Type} [DecidableEq e] [DecidableEq a] :
    DecidableEq (Except e a) := fun x y =>
  match x, y with
  | Except.ok v, Except.ok w =>
    if h : v = w then isTrue (by rw [h]) else isFalse (fun hc => h (Except.ok.inj hc))
  | Except.error v, Except.error w =>
    if h : v = w then isTrue (by rw [h]) else isFalse (fun hc => h (Except.error.inj hc))
  | Except.ok _, Except.error _ => isFalse (fun hc => Except.noConfusion hc)
  | Except.error _, Except.ok _ => isFalse (fun hc => Except.noConfusion hc)

/-- Chat roles, as used in the history dictionaries of the Python code. -/
inductive Role
  | system
  | user
  | assistant
deriving DecidableEq

/-- One history entry (a turn): a role plus UTF-8 text content, as stored
in AlinaAssistant.history and in the fallback pipeline's messages list. -/
structure Msg where
  role : Role
  content : String
deriving DecidableEq

/-- Errors raised by the Python code: a RuntimeError with a message, or a
capability-adapter (STT / LLM / TTS) failure identified by its stage. -/
inductive PyErr
  | runtimeError (msg : String)
  | adapterError (stage : String)
deriving DecidableEq

/-- Whitespace as stripped by Python str.strip with no arguments
(restricted to the ASCII whitespace characters). -/
def pyIsSpace (c : Char) : Bool :=
  c = ' ' || c = '\t' || c = '\n' || c = '\r' || c = '\x0b' || c = '\x0c'

/-- Python str.strip(): removes leading and trailing whitespace. -/
def pyStrip (s : String) : String :=
  String.mk (((s.data.dropWhile pyIsSpace).reverse.dropWhile pyIsSpace).reverse)

/-- Python negative-index slice l[-k:]. For k greater than 0 this is the
last k elements (the whole list when k exceeds the length); for k = 0
Python degenerates to l[0:], the whole list. -/
def pySliceFromNeg (l : List Msg) (k : Nat) : List Msg :=
  if k = 0 then l else l.drop (l.length - k)

/-- Embeds _lang_norm of backend/assistant/alina.py:
(mode or "ru").strip().lower() mapped onto the three language modes. -/
def lang_norm (mode : String) : String :=
  let m := (pyStrip (if mode = "" then "ru" else mode)).toLower
  if m = "ru" ∨ m = "rus" ∨ m = "russian" then "ru"
  else if m = "en" ∨ m = "eng" ∨ m = "english" then "en"
  else if m = "th" ∨ m = "thai" then "th"
  else "ru"

/-- Embeds _system_prompt of backend/assistant/alina.py (the per-language
system prompt of the primary assistant). -/
def system_prompt (lang : String) : String :=
  if lang = "en" then
    "You are Alina, a concise, helpful voice assistant. Answer clearly, keep it short, avoid long disclaimers. If user asks for steps, give structured steps."
  else if lang = "th" then
    "คุณคือ Alina ผู้ช่วยเสียงที่ตอบสั้น ชัดเจน และมีโครงสร้าง ตอบเป็นภาษาไทยเป็นหลัก ถ้าผู้ใช้ขอขั้นตอน ให้ตอบเป็นข้อ ๆ"
  else
    "Ты Алина — голосовой ассистент. Отвечай кратко, по делу, структурно. Если нужен план — дай шаги. Не пиши длинных дисклеймеров."

/-- Embeds AlinaAssistant._reset_history composed with __init__: the
assistant starts with exactly one system entry derived from its mode. -/
def alina_init (mode : String) : List Msg :=
  [⟨Role.system, system_prompt (lang_norm mode)⟩]

/-- Embeds AlinaAssistant._trim_history for max_history_turns = N:
if len(history) is at most 1 it is returned unchanged; otherwise, with
keep = 1 + N * 2, when len(history) > keep the history becomes
[history[0]] + history[-(keep - 1):]. -/
def trim_history (N : Nat) (h : List Msg) : List Msg :=
  if h.length ≤ 1 then h
  else if h.length > 1 + N * 2 then h.take 1 ++ pySliceFromNeg h (1 + N * 2 - 1)
  else h

/-- The history value passed to the reply-generation adapter inside
handle_user_audio: the incoming history with the stripped transcript
appended as a user turn, then trimmed (alina.py lines 168-175). -/
def llm_prompt (hist : List Msg) (N : Nat) (transcript : String) : List Msg :=
  trim_history N (hist ++ [⟨Role.user, pyStrip transcript⟩])

/-- The observable fields of the dict returned by
AlinaAssistant.handle_user_audio (timings and audio_mime omitted; the
returned history is modelled as the second component of the pair). -/
structure HandleResult where
  transcript : String
  answer : String
  audio : List Nat
  cancelled : Bool
deriving DecidableEq

/-- Embeds AlinaAssistant.handle_user_audio for an assistant whose history
is hist and whose max_history_turns is N. The adapters are opaque: stt is
the transcription outcome, llm maps the prompt to the reply outcome, tts
maps the reply to the synthesis outcome. c1 and c2 are the values the two
checkpoint reads of cancel_token.cancelled observe. Returns the outcome
(result dict or raised error) together with the final history. -/
def handle_user_audio (hist : List Msg) (N : Nat)
    (stt : Except PyErr String)
    (llm : List Msg → Except PyErr String)
    (tts : String → Except PyErr (List Nat))
    (c1 c2 : Bool) : Except PyErr HandleResult × List Msg :=
  match stt with
  | Except.error e => (Except.error e, hist)
  | Except.ok transcript =>
    if c1 then
      (Except.ok ⟨transcript, "", [], true⟩, hist)
    else if pyStrip transcript = "" then
      (Except.error (PyErr.runtimeError "Empty transcript from STT"), hist)
    else
      let hist1 := llm_prompt hist N transcript
      match llm hist1 with
      | Except.error e => (Except.error e, hist1)
      | Except.ok answer0 =>
        if c2 then
          (Except.ok ⟨transcript, "", [], true⟩, hist1)
        else
          let answer := pyStrip answer0
          let hist2 := trim_history N (hist1 ++ [⟨Role.assistant, answer⟩])
          match tts answer with
          | Except.error e => (Except.error e, hist2)
          | Except.ok audio => (Except.ok ⟨transcript, answer, audio, false⟩, hist2)

/-- One pipeline run's inputs: the adapter outcomes and the two observed
cancellation-checkpoint values. -/
structure RunInput where
  stt : Except PyErr String
  llm : List Msg → Except PyErr String
  tts : String → Except PyErr (List Nat)
  c1 : Bool
  c2 : Bool

/-- A sequence of pipeline runs on one assistant, threading the history. -/
def run_seq (N : Nat) (hist : List Msg) : List RunInput → List Msg
  | [] => hist
  | r :: rs => run_seq N (handle_user_audio hist N r.stt r.llm r.tts r.c1 r.c2).2 rs

/-- The turn-pairing property of the history entries after the system
entry: roles strictly alternate user, assistant, user, assistant, and the
length is even. -/
def alternatingFrom : List Msg → Bool
  | [] => true
  | [_] => false
  | u :: a :: rest =>
    decide (u.role = Role.user) && decide (a.role = Role.assistant) && alternatingFrom rest

/-- A well-formed assistant history: one leading system entry followed by
an even-length, strictly alternating, bounded sequence of turns. -/
def HistoryPaired (N : Nat) (h : List Msg) : Prop :=
  ∃ s rest, h = ⟨Role.system, s⟩ :: rest ∧ alternatingFrom rest = true ∧
    rest.length % 2 = 0 ∧ rest.length ≤ N * 2

/-- Embeds _fallback_system_prompt of backend/alina_server.py. -/
def fallback_system_prompt (lang : String) : String :=
  if lang = "th" then
    "You are Alina, a helpful voice assistant. Reply in Thai language only. Be concise, structured, and friendly. If user asks about Phuket food, give practical suggestions."
  else if lang = "en" then
    "You are Alina, a helpful voice assistant. Reply in English. Be concise, structured, and friendly."
  else
    "Ты — Алина, полезный голосовой ассистент. Отвечай на русском. Коротко, структурно и дружелюбно."

/-- The observable fields of the dict returned by _fallback_pipeline of
backend/alina_server.py. The cancelled marker lives inside timings there,
never as a top-level cancelled key. -/
structure FallbackResult where
  transcript : String
  answer : String
  audio : List Nat
  history : List Msg
  timings_cancelled : Bool
deriving DecidableEq

/-- Embeds _fallback_pipeline of backend/alina_server.py: STT, one
cancellation check, LLM over a two-entry prompt, a second cancellation
check, TTS. d1 and d2 are the values its two reads of
cancel_token.cancelled observe. -/
def fallback_pipeline (lang : String)
    (stt : Except PyErr String)
    (llm : List Msg → Except PyErr String)
    (tts : String → Except PyErr (List Nat))
    (d1 d2 : Bool) : Except PyErr FallbackResult :=
  match stt with
  | Except.error e => Except.error e
  | Except.ok transcript =>
    if d1 then
      Except.ok ⟨transcript, "", [], [], true⟩
    else
      let messages : List Msg :=
        [⟨Role.system, fallback_system_prompt lang⟩, ⟨Role.user, transcript⟩]
      match llm messages with
      | Except.error e => Except.error e
      | Except.ok answer =>
        if d2 then
          Except.ok ⟨transcript, answer, [], messages ++ [⟨Role.assistant, answer⟩], true⟩
        else
          match tts answer with
          | Except.error e => Except.error e
          | Except.ok audio =>
            Except.ok ⟨transcript, answer, audio, messages ++ [⟨Role.assistant, answer⟩], false⟩

/-- The server's cancellation bookkeeping: the module-level dict
active_cancels (session_id to token, tokens named by numeric identity),
the set of tokens whose cancel() has been called, and a fresh-name
counter for newly constructed CancelToken objects. -/
structure ServerCtl where
  active_cancels : List (String × Nat)
  signalled : List Nat
  next_id : Nat
deriving DecidableEq

/-- Dictionary lookup in active_cancels. -/
def lookupToken : List (String × Nat) → String → Option Nat
  | [], _ => none
  | (s, t) :: rest, sid => if s = sid then some t else lookupToken rest sid

/-- Dictionary assignment active_cancels[session_id] = token. -/
def setToken : List (String × Nat) → String → Nat → List (String × Nat)
  | [], sid, t => [(sid, t)]
  | (s, u) :: rest, sid, t =>
    if s = sid then (sid, t) :: rest else (s, u) :: setToken rest sid t

/-- Dictionary removal active_cancels.pop(session_id, None). -/
def removeToken (l : List (String × Nat)) (sid : String) : List (String × Nat) :=
  l.filter (fun p => decide (p.1 ≠ sid))

/-- Embeds alina_server.py lines 198-199, the start of a /alina/voice run:
cancel_token = CancelToken(False); active_cancels[session_id] =
cancel_token. Returns the new state and the fresh token. Note that the
code neither signals nor consults any previously installed token. -/
def begin_run (st : ServerCtl) (sid : String) : ServerCtl × Nat :=
  (⟨setToken st.active_cancels sid st.next_id, st.signalled, st.next_id + 1⟩, st.next_id)

/-- Embeds the finally block of alina_voice (alina_server.py lines
245-246): active_cancels.pop(session_id, None), performed by every
finishing run regardless of which token it installed. -/
def end_run (st : ServerCtl) (sid : String) : ServerCtl :=
  ⟨removeToken st.active_cancels sid, st.signalled, st.next_id⟩

/-- Embeds the /alina/cancel endpoint: look up the session's token; if
present call cancel() on it and report cancelled, else report not_found. -/
def alina_cancel (st : ServerCtl) (sid : String) : ServerCtl × String :=
  match lookupToken st.active_cancels sid with
  | some t => (⟨st.active_cancels, t :: st.signalled, st.next_id⟩, "cancelled")
  | none => (st, "not_found")

/-- The JSON body shape of a successful /alina/voice response.
cancelled_key models the optional top-level cancelled key (present and
true only in the primary assistant's cancelled returns);
timings_cancelled models the cancelled flag inside timings (set only by
the fallback pipeline's cancelled returns). -/
structure RespBody where
  transcript : String
  answer : String
  audio : List Nat
  cancelled_key : Option Bool
  timings_cancelled : Bool
deriving DecidableEq

/-- An HTTP response of /alina/voice: a JSON success body or an HTTP
error (400 for empty audio, 500 via HTTPException in the outer except). -/
inductive Resp
  | json (body : RespBody)
  | httpError (status : Nat) (detail : String)
deriving DecidableEq

/-- Projects a primary-assistant result dict onto the response body: the
dict carries a top-level cancelled key exactly in its cancelled returns. -/
def body_of_primary (r : HandleResult) : RespBody :=
  ⟨r.transcript, r.answer, r.audio, if r.cancelled then some true else none, false⟩

/-- Projects a fallback-pipeline result dict onto the response body: no
top-level cancelled key; the cancellation marker sits inside timings. -/
def body_of_fallback (f : FallbackResult) : RespBody :=
  ⟨f.transcript, f.answer, f.audio, none, f.timings_cancelled⟩

/-- Embeds the request routing of the /alina/voice handler (alina_server
lines 191-243): reject empty audio with 400; if the primary assistant is
available try it, and on any exception run the fallback pipeline; without
a primary assistant run the fallback directly; a fallback exception
reaches the outer except and becomes HTTP 500. The primary and fallback
adapter outcomes and checkpoint observations are separate parameters
because the fallback re-runs the stages. Returns the response and the
primary assistant's final history. -/
def alina_voice_route (audio : List Nat) (available : Bool)
    (hist : List Msg) (N : Nat)
    (stt : Except PyErr String) (llm : List Msg → Except PyErr String)
    (tts : String → Except PyErr (List Nat)) (c1 c2 : Bool) (lang : String)
    (fstt : Except PyErr String) (fllm : List Msg → Except PyErr String)
    (ftts : String → Except PyErr (List Nat)) (d1 d2 : Bool) :
    Resp × List Msg :=
  if audio = [] then (Resp.httpError 400 "Empty audio file", hist)
  else if available then
    match handle_user_audio hist N stt llm tts c1 c2 with
    | (Except.ok r, h1) => (Resp.json (body_of_primary r), h1)
    | (Except.error _, h1) =>
      match fallback_pipeline lang fstt fllm ftts d1 d2 with
      | Except.ok f => (Resp.json (body_of_fallback f), h1)
      | Except.error _ => (Resp.httpError 500 "Alina error", h1)
  else
    match fallback_pipeline lang fstt fllm ftts d1 d2 with
    | Except.ok f => (Resp.json (body_of_fallback f), hist)
    | Except.error _ => (Resp.httpError 500 "Alina error", hist)

/-- The three module-level AlinaAssistant instances of alina_server.py
(assistant_ru, assistant_en, assistant_th). -/
inductive AssistantId
  | ru
  | en
  | th
deriving DecidableEq

/-- Embeds _pick_lang_assistant of alina_server.py: the assistant is
chosen by the lang form field alone. -/
def pick_lang_assistant (lang : String) : AssistantId :=
  if lang = "en" then AssistantId.en
  else if lang = "th" then AssistantId.th
  else AssistantId.ru

/-- The mutable histories of the three module-level assistants. -/
structure AssistantsState where
  ru_hist : List Msg
  en_hist : List Msg
  th_hist : List Msg
deriving DecidableEq

/-- Reads one assistant's history. -/
def getHist (st : AssistantsState) : AssistantId → List Msg
  | AssistantId.ru => st.ru_hist
  | AssistantId.en => st.en_hist
  | AssistantId.th => st.th_hist

/-- Writes one assistant's history. -/
def setHist (st : AssistantsState) (a : AssistantId) (h : List Msg) : AssistantsState :=
  match a with
  | AssistantId.ru => ⟨h, st.en_hist, st.th_hist⟩
  | AssistantId.en => ⟨st.ru_hist, h, st.th_hist⟩
  | AssistantId.th => ⟨st.ru_hist, st.en_hist, h⟩

/-- The module-level assistants as constructed at import time:
AlinaAssistant(mode="ru"), (mode="en"), (mode="th"), each with the
default max_history_turns = 8. -/
def init_assistants : AssistantsState :=
  ⟨alina_init "ru", alina_init "en", alina_init "th"⟩

/-- One /alina/voice request served by the primary-assistant path: the
assistant is picked from lang (the session_id form field sid plays no
part in the choice), its history is read, the run executes, and the same
assistant's history is overwritten with the run's final history. -/
def voice_primary_step (st : AssistantsState) (lang sid : String) (N : Nat)
    (stt : Except PyErr String) (llm : List Msg → Except PyErr String)
    (tts : String → Except PyErr (List Nat)) (c1 c2 : Bool) :
    AssistantsState × Except PyErr HandleResult :=
  (setHist st (pick_lang_assistant lang)
     (handle_user_audio (getHist st (pick_lang_assistant lang)) N stt llm tts c1 c2).2,
   (handle_user_audio (getHist st (pick_lang_assistant lang)) N stt llm tts c1 c2).1)

/-- Embeds tts_elevenlabs of backend/elevenlabs_client.py: text is
stripped; blank text returns empty bytes immediately; otherwise the
stripped text is posted to the TTS service, modelled by the opaque
function post, and the response content (or raised error) is returned. -/
def tts_elevenlabs (post : String → Except PyErr (List Nat)) (text : String) :
    Except PyErr (List Nat) :=
  if pyStrip text = "" then Except.ok []
  else post (pyStrip text)

/-- A reply-generation adapter that always succeeds with a fixed reply. -/
def llmConst (a : String) : List Msg → Except PyErr String :=
  fun _ => Except.ok a

/-- A reply-generation adapter that always fails. -/
def llmFail (stage : String) : List Msg → Except PyErr String :=
  fun _ => Except.error (PyErr.adapterError stage)

/-- A synthesis adapter that always succeeds with fixed bytes. -/
def ttsConst (b : List Nat) : String → Except PyErr (List Nat) :=
  fun _ => Except.ok b

/-- A synthesis adapter that always fails. -/
def ttsFail (stage : String) : String → Except PyErr (List Nat) :=
  fun _ => Except.error (PyErr.adapterError stage)

/-- Trimming is the identity on histories short enough to keep. -/
theorem trim_history_of_le (N : Nat) (h : List Msg) (hle : h.length ≤ 1 + N * 2) :
    trim_history N h = h := by
  unfold trim_history
  split
  · rfl
  · rw [if_neg (by omega)]

/-- Trimming a history that exceeds the bound by exactly one appended
entry keeps the head and drops the two oldest turns after it. -/
theorem trim_history_of_two_over (N : Nat) (h : List Msg) (hN : 1 ≤ N)
    (hlen : h.length = 2 + N * 2) :
    trim_history N h = h.take 1 ++ h.drop 2 := by
  unfold trim_history pySliceFromNeg
  split
  · exfalso; omega
  · split
    · split
      · exfalso; omega
      · have h2 : h.length - (1 + N * 2 - 1) = 2 := by omega
        rw [h2]
    · exfalso; omega

/-- Appending one user turn followed by one assistant turn preserves the
alternation property. -/
theorem alternatingFrom_append_pair (s t : String) :
    ∀ (l : List Msg), alternatingFrom l = true →
      alternatingFrom (l ++ [⟨Role.user, s⟩, ⟨Role.assistant, t⟩]) = true
  | [], _ => by simp [alternatingFrom]
  | [_], h => by simp [alternatingFrom] at h
  | u :: a :: rest, h => by
    simp only [alternatingFrom, Bool.and_eq_true, decide_eq_true_eq] at h
    simp only [List.cons_append, alternatingFrom, Bool.and_eq_true, decide_eq_true_eq]
    exact ⟨⟨h.1.1, h.1.2⟩, alternatingFrom_append_pair s t rest h.2⟩

/-- An alternating turn list has even length. -/
theorem alternatingFrom_length_even :
    ∀ (l : List Msg), alternatingFrom l = true → l.length % 2 = 0
  | [], _ => rfl
  | [_], h => by simp [alternatingFrom] at h
  | _ :: _ :: rest, h => by
    simp only [alternatingFrom, Bool.and_eq_true] at h
    have ih := alternatingFrom_length_even rest h.2
    simp only [List.length_cons]
    omega

/-- Committing a user turn and then an assistant turn, trimming after
each append as handle_user_audio does, preserves history well-formedness. -/
theorem paired_after_commit (N : Nat) (s us v : String) (rest : List Msg)
    (hN : 1 ≤ N) (halt : alternatingFrom rest = true) (hlen : rest.length ≤ N * 2) :
    HistoryPaired N (trim_history N
      (trim_history N ((⟨Role.system, s⟩ :: rest) ++ [⟨Role.user, us⟩])
        ++ [⟨Role.assistant, v⟩])) := by
  have heven := alternatingFrom_length_even rest halt
  rcases Nat.lt_or_ge rest.length (N * 2) with hlt | hge
  · have h2 : rest.length + 2 ≤ N * 2 := by omega
    have e1 : trim_history N ((⟨Role.system, s⟩ :: rest) ++ [⟨Role.user, us⟩])
        = (⟨Role.system, s⟩ :: rest) ++ [⟨Role.user, us⟩] :=
      trim_history_of_le N _ (by simp [List.length_append]; omega)
    rw [e1]
    have e2 : trim_history N (((⟨Role.system, s⟩ :: rest) ++ [⟨Role.user, us⟩])
          ++ [⟨Role.assistant, v⟩])
        = ((⟨Role.system, s⟩ :: rest) ++ [⟨Role.user, us⟩]) ++ [⟨Role.assistant, v⟩] :=
      trim_history_of_le N _ (by simp [List.length_append]; omega)
    rw [e2]
    refine ⟨s, rest ++ [⟨Role.user, us⟩, ⟨Role.assistant, v⟩], by simp, ?_, ?_, ?_⟩
    · exact alternatingFrom_append_pair us v rest halt
    · exact alternatingFrom_length_even _ (alternatingFrom_append_pair us v rest halt)
    · simp [List.length_append]; omega
  · have hEq : rest.length = N * 2 := le_antisymm hlen hge
    cases rest with
    | nil => exfalso; simp at hEq; omega
    | cons x rest1 =>
      cases rest1 with
      | nil => exfalso; simp at hEq; omega
      | cons y t =>
        have ht : alternatingFrom t = true := by
          simp only [alternatingFrom, Bool.and_eq_true] at halt
          exact halt.2
        have hlt : t.length = N * 2 - 2 := by
          simp only [List.length_cons] at hEq
          omega
        have e1 : trim_history N ((⟨Role.system, s⟩ :: x :: y :: t) ++ [⟨Role.user, us⟩])
            = ⟨Role.system, s⟩ :: y :: (t ++ [⟨Role.user, us⟩]) := by
          rw [trim_history_of_two_over N _ hN
            (by simp [List.length_append, List.length_cons]; omega)]
          simp
        rw [e1]
        have e2 : trim_history N ((⟨Role.system, s⟩ :: y :: (t ++ [⟨Role.user, us⟩]))
              ++ [⟨Role.assistant, v⟩])
            = ⟨Role.system, s⟩ :: (t ++ [⟨Role.user, us⟩, ⟨Role.assistant, v⟩]) := by
          rw [trim_history_of_two_over N _ hN
            (by simp [List.length_append, List.length_cons]; omega)]
          simp
        rw [e2]
        refine ⟨s, t ++ [⟨Role.user, us⟩, ⟨Role.assistant, v⟩], rfl, ?_, ?_, ?_⟩
        · exact alternatingFrom_append_pair us v t ht
        · exact alternatingFrom_length_even _ (alternatingFrom_append_pair us v t ht)
        · simp [List.length_append]; omega

/-- A single run preserves history well-formedness provided the
reply-generation adapter does not fail and the run is not cancelled at
the post-generation checkpoint. -/
theorem handle_user_audio_preserves (hist : List Msg) (N : Nat)
    (stt : Except PyErr String) (llm : List Msg → Except PyErr String)
    (tts : String → Except PyErr (List Nat)) (c1 : Bool)
    (hN : 1 ≤ N) (hp : HistoryPaired N hist)
    (hllm : ∀ m, ∃ a, llm m = Except.ok a) :
    HistoryPaired N (handle_user_audio hist N stt llm tts c1 false).2 := by
  obtain ⟨s, rest, rfl, halt, _, hlen⟩ := hp
  cases stt with
  | error e =>
    exact ⟨s, rest, by simp [handle_user_audio], halt,
      alternatingFrom_length_even rest halt, hlen⟩
  | ok t =>
    cases c1 with
    | true =>
      exact ⟨s, rest, by simp [handle_user_audio], halt,
        alternatingFrom_length_even rest halt, hlen⟩
    | false =>
      by_cases hts : pyStrip t = ""
      · exact ⟨s, rest, by simp [handle_user_audio, hts], halt,
          alternatingFrom_length_even rest halt, hlen⟩
      · obtain ⟨a, ha⟩ := hllm (llm_prompt (⟨Role.system, s⟩ :: rest) N t)
        cases htts : tts (pyStrip a) with
        | error e2 =>
          simp only [handle_user_audio, if_neg hts, Bool.false_eq_true, if_false, ha, htts]
          exact paired_after_commit N s (pyStrip t) (pyStrip a) rest hN halt hlen
        | ok audio =>
          simp only [handle_user_audio, if_neg hts, Bool.false_eq_true, if_false, ha, htts]
          exact paired_after_commit N s (pyStrip t) (pyStrip a) rest hN halt hlen

/-- Across any sequence of runs whose reply generation succeeds and which
are not cancelled at the post-generation checkpoint, history
well-formedness is an invariant. -/
theorem run_seq_paired (N : Nat) (hN : 1 ≤ N) :
    ∀ (runs : List RunInput) (h : List Msg),
      HistoryPaired N h →
      (∀ r ∈ runs, r.c2 = false ∧ ∀ m, ∃ a, r.llm m = Except.ok a) →
      HistoryPaired N (run_seq N h runs)
  | [], _, hp, _ => hp
  | r :: rs, h, hp, hruns => by
    have h1 := hruns r (by simp)
    have h2 : HistoryPaired N (handle_user_audio h N r.stt r.llm r.tts r.c1 r.c2).2 := by
      rw [h1.1]
      exact handle_user_audio_preserves h N r.stt r.llm r.tts r.c1 hN hp h1.2
    exact run_seq_paired N hN rs _ h2 (fun q hq => hruns q (by simp [hq]))

/-- After a fully successful run on a fresh single-entry history with the
deployed max_history_turns = 8, the history holds the system entry, the
stripped user turn and the stripped assistant turn. -/
theorem handle_success_hist8 (s t1 a1 : String) (audio1 : List Nat)
    (h1 : pyStrip t1 ≠ "") :
    (handle_user_audio [⟨Role.system, s⟩] 8 (Except.ok t1)
        (llmConst a1) (ttsConst audio1) false false).2
      = [⟨Role.system, s⟩, ⟨Role.user, pyStrip t1⟩, ⟨Role.assistant, pyStrip a1⟩] := by
  simp [handle_user_audio, llmConst, ttsConst, h1, llm_prompt, trim_history, pySliceFromNeg]

/-- The reply-generation prompt of a follow-up run contains the user turn
committed by a preceding successful run on the same assistant. -/
theorem success_prompt_mem (s t1 a1 t2 : String) (audio1 : List Nat)
    (h1 : pyStrip t1 ≠ "") :
    Msg.mk Role.user (pyStrip t1) ∈
      llm_prompt (handle_user_audio [⟨Role.system, s⟩] 8 (Except.ok t1)
        (llmConst a1) (ttsConst audio1) false false).2 8 t2 := by
  rw [handle_success_hist8 s t1 a1 audio1 h1]
  unfold llm_prompt
  rw [trim_history_of_le 8 _ (by simp [List.length_append])]
  exact List.mem_cons_of_mem _ (List.mem_cons_self _ _)

/-- Reading back the history just written for an assistant. -/
theorem getHist_setHist (st : AssistantsState) (a : AssistantId) (h : List Msg) :
    getHist (setHist st a h) a = h := by
  cases a <;> rfl

/-- Assigning a key in the token dictionary makes it the looked-up value. -/
theorem lookupToken_setToken (sid : String) (t : Nat) :
    ∀ (l : List (String × Nat)), lookupToken (setToken l sid t) sid = some t
  | [] => by simp [setToken, lookupToken]
  | (s0, u) :: rest => by
    by_cases h : s0 = sid
    · simp [setToken, lookupToken, h]
    · simp [setToken, lookupToken, h, lookupToken_setToken sid t rest]

/-- Popping a key from the token dictionary removes it. -/
theorem lookupToken_removeToken_self (sid : String) :
    ∀ (l : List (String × Nat)), lookupToken (removeToken l sid) sid = none
  | [] => by simp [removeToken, lookupToken]
  | (s0, u) :: rest => by
    by_cases h : s0 = sid
    · simpa [removeToken, h] using lookupToken_removeToken_self sid rest
    · simpa [removeToken, lookupToken, h] using lookupToken_removeToken_self sid rest

/-- Popping a key from the token dictionary leaves other keys unchanged. -/
theorem lookupToken_removeToken_other (sid sid2 : String) (hne : sid2 ≠ sid) :
    ∀ (l : List (String × Nat)),
      lookupToken (removeToken l sid) sid2 = lookupToken l sid2
  | [] => by simp [removeToken, lookupToken]
  | (s0, u) :: rest => by
    have hne2 : sid ≠ sid2 := fun hc => hne hc.symm
    by_cases h : s0 = sid
    · simpa [removeToken, lookupToken, h, hne2] using
        lookupToken_removeToken_other sid sid2 hne rest
    · by_cases h3 : s0 = sid2
      · simp [removeToken, lookupToken, h, h3, hne]
      · simpa [removeToken, lookupToken, h, h3] using
          lookupToken_removeToken_other sid sid2 hne rest

/-- C1, counterexample: a run cancelled at the post-generation checkpoint
completes (returning cancelled=true) yet leaves the appended user turn in
history, so the entries after the system entry have odd length and do not
alternate — the claimed invariant fails after this run. -/
theorem C1_counterexample :
    (handle_user_audio [⟨Role.system, "s"⟩] 8 (Except.ok "hi")
        (llmConst "yo") (ttsConst [1]) false true).2
      = [⟨Role.system, "s"⟩, ⟨Role.user, "hi"⟩] ∧
    alternatingFrom [⟨Role.user, "hi"⟩] = false := by
  decide

/-- C1 (amended): with max_history_turns at least 1, over every sequence
of runs in which no reply-generation adapter call fails and no run is
cancelled at the post-generation checkpoint, the history after every run
is the system entry followed by an even-length, strictly alternating,
bounded user/assistant turn list. The unamended claim fails for runs
whose reply generation fails or which observe cancellation after reply
generation: those leave an orphaned user turn. -/
theorem C1_pairing_invariant (N : Nat) (s : String) (runs : List RunInput)
    (hN : 1 ≤ N)
    (hruns : ∀ r ∈ runs, r.c2 = false ∧ ∀ m, ∃ a, r.llm m = Except.ok a) :
    HistoryPaired N (run_seq N [⟨Role.system, s⟩] runs) :=
  run_seq_paired N hN runs _ ⟨s, [], rfl, rfl, rfl, by simp⟩ hruns

/-- C1 witness: one concrete successful run at max_history_turns = 8. -/
theorem C1_pairing_invariant_witness :
    HistoryPaired 8 (run_seq 8 [⟨Role.system, "s"⟩]
      [⟨Except.ok "hi", llmConst "yo", ttsConst [1], false, false⟩]) :=
  C1_pairing_invariant 8 "s"
    [⟨Except.ok "hi", llmConst "yo", ttsConst [1], false, false⟩]
    (by decide)
    (by
      intro r hr
      rw [List.mem_singleton] at hr
      subst hr
      exact ⟨rfl, fun m => ⟨"yo", rfl⟩⟩)

/-- C2, counterexample: with token 0 active and unsignalled for session
s1, starting a new run installs fresh token 1 while the signalled set
stays empty — the prior handle is replaced without being signalled,
refuting the claimed barge-in policy. -/
theorem C2_counterexample :
    (begin_run ⟨[("s1", 0)], [], 1⟩ "s1").1
      = (⟨[("s1", 1)], [], 2⟩ : ServerCtl) := by
  decide

/-- C2 (amended): starting a new run installs a fresh handle as the
session's active handle without signalling anything: the set of
signalled tokens is unchanged, so a prior active handle is replaced
unsignalled (only the explicit /alina/cancel endpoint signals tokens). -/
theorem C2_begin_run_no_signal (st : ServerCtl) (sid : String) :
    (begin_run st sid).1.signalled = st.signalled ∧
    lookupToken (begin_run st sid).1.active_cancels sid
      = some (begin_run st sid).2 :=
  ⟨rfl, lookupToken_setToken sid st.next_id st.active_cancels⟩

/-- C3 (confirmed): the primary path keeps one module-level assistant per
language mode. First conjunct: a /alina/voice request's effect and
result do not depend on the session_id form field — two requests with
the same lang and distinct session ids read and append to the same
assistant history. Second conjunct: after a successful first run served
for session sid1, the reply-generation prompt of a second run with the
same lang (for session sid2) contains the first session's user turn. -/
theorem C3_cross_session_history (lang sid1 sid2 : String) (t1 a1 t2 : String)
    (audio1 : List Nat) (hsid : sid1 ≠ sid2) (h1 : pyStrip t1 ≠ "") :
    (∀ (st : AssistantsState) (stt : Except PyErr String)
       (llm : List Msg → Except PyErr String)
       (tts : String → Except PyErr (List Nat)) (c1 c2 : Bool),
        voice_primary_step st lang sid1 8 stt llm tts c1 c2
          = voice_primary_step st lang sid2 8 stt llm tts c1 c2) ∧
    Msg.mk Role.user (pyStrip t1) ∈
      llm_prompt (getHist (voice_primary_step init_assistants lang sid1 8
          (Except.ok t1) (llmConst a1) (ttsConst audio1) false false).1
        (pick_lang_assistant lang)) 8 t2 := by
  constructor
  · intro st stt llm tts c1 c2
    rfl
  · simp only [voice_primary_step]
    rw [getHist_setHist]
    cases pick_lang_assistant lang <;>
      exact success_prompt_mem _ t1 a1 t2 audio1 h1

/-- C3 witness: two concrete sessions s1 and s2 sharing the ru history. -/
theorem C3_cross_session_history_witness :
    voice_primary_step init_assistants "ru" "s1" 8 (Except.ok "hi")
        (llmConst "yo") (ttsConst [1]) false false
      = voice_primary_step init_assistants "ru" "s2" 8 (Except.ok "hi")
        (llmConst "yo") (ttsConst [1]) false false ∧
    Msg.mk Role.user (pyStrip "hi") ∈
      llm_prompt (getHist (voice_primary_step init_assistants "ru" "s1" 8
          (Except.ok "hi") (llmConst "yo") (ttsConst [1]) false false).1
        (pick_lang_assistant "ru")) 8 "again" :=
  ⟨(C3_cross_session_history "ru" "s1" "s2" "hi" "yo" "again" [1]
      (by decide) (by decide)).1
      init_assistants (Except.ok "hi") (llmConst "yo") (ttsConst [1]) false false,
   (C3_cross_session_history "ru" "s1" "s2" "hi" "yo" "again" [1]
      (by decide) (by decide)).2⟩

/-- C4, counterexample: a run whose handle is signalled when reply
generation returns successfully returns an empty answer (not the
generated reply "yo") and leaves the user turn committed to history —
both halves of the claim fail at this input. -/
theorem C4_counterexample :
    (handle_user_audio [⟨Role.system, "s"⟩] 8 (Except.ok "hi")
        (llmConst "yo") (ttsConst [1]) false true).1
      = Except.ok ⟨"hi", "", [], true⟩ ∧
    (handle_user_audio [⟨Role.system, "s"⟩] 8 (Except.ok "hi")
        (llmConst "yo") (ttsConst [1]) false true).2
      ≠ [⟨Role.system, "s"⟩] := by
  decide

/-- C4 (amended): a run cancelled at the post-generation checkpoint
returns cancelled=true with the transcript, an empty reply text and no
audio, and its history is the trimmed history with the user turn
committed (the assistant turn is not committed, synthesis never runs). -/
theorem C4_post_generation_cancel (hist : List Msg) (N : Nat) (t a : String)
    (llm : List Msg → Except PyErr String) (tts : String → Except PyErr (List Nat))
    (ht : pyStrip t ≠ "") (hllm : llm (llm_prompt hist N t) = Except.ok a) :
    handle_user_audio hist N (Except.ok t) llm tts false true
      = (Except.ok ⟨t, "", [], true⟩, llm_prompt hist N t) := by
  simp [handle_user_audio, ht, hllm]

/-- C4 witness: a concrete post-generation cancellation. -/
theorem C4_post_generation_cancel_witness :
    handle_user_audio [⟨Role.system, "s"⟩] 8 (Except.ok "hi")
        (llmConst "yo") (ttsConst [1]) false true
      = (Except.ok ⟨"hi", "", [], true⟩, llm_prompt [⟨Role.system, "s"⟩] 8 "hi") :=
  C4_post_generation_cancel [⟨Role.system, "s"⟩] 8 "hi" "yo"
    (llmConst "yo") (ttsConst [1]) (by decide) rfl

/-- C5, counterexample: a run whose transcription succeeds with empty
text raises RuntimeError (Empty transcript from STT) — it does not
terminate as a success, refuting the claimed silence short-circuit. -/
theorem C5_counterexample :
    (handle_user_audio [⟨Role.system, "s"⟩] 8 (Except.ok "")
        (llmConst "yo") (ttsConst [1]) false false).1
      = Except.error (PyErr.runtimeError "Empty transcript from STT") := by
  decide

/-- C5 (amended): a run whose transcription succeeds with empty or blank
text fails with RuntimeError (Empty transcript from STT) instead of
succeeding; it leaves the history unchanged and invokes neither the
reply-generation nor the synthesis adapter (the outcome is this same
pair for every llm and tts argument). -/
theorem C5_blank_transcript_raises (hist : List Msg) (N : Nat) (t : String)
    (llm : List Msg → Except PyErr String) (tts : String → Except PyErr (List Nat))
    (c2 : Bool) (ht : pyStrip t = "") :
    handle_user_audio hist N (Except.ok t) llm tts false c2
      = (Except.error (PyErr.runtimeError "Empty transcript from STT"), hist) := by
  simp [handle_user_audio, ht]

/-- C5 witness: a concrete blank transcript. -/
theorem C5_blank_transcript_raises_witness :
    handle_user_audio [⟨Role.system, "s"⟩] 8 (Except.ok " ")
        (llmConst "yo") (ttsConst [1]) false false
      = (Except.error (PyErr.runtimeError "Empty transcript from STT"),
         [⟨Role.system, "s"⟩]) :=
  C5_blank_transcript_raises [⟨Role.system, "s"⟩] 8 " "
    (llmConst "yo") (ttsConst [1]) false (by decide)

/-- C6, counterexample: a finishing run pops the session's entry even
though the active token (5, installed by a newer run) is not the token
the finishing run installed — ownership is never checked, refuting the
claimed conditional clear. -/
theorem C6_counterexample :
    (end_run ⟨[("s1", 5)], [], 6⟩ "s1").active_cancels = [] := by
  decide

/-- C6 (amended): a finishing run unconditionally removes the session's
active-handle entry, whether or not a newer run's handle has superseded
its own; the signalled set and other sessions' entries are untouched. -/
theorem C6_end_run_unconditional (st : ServerCtl) (sid : String) :
    lookupToken (end_run st sid).active_cancels sid = none ∧
    (end_run st sid).signalled = st.signalled ∧
    ∀ sid2, sid2 ≠ sid →
      lookupToken (end_run st sid).active_cancels sid2
        = lookupToken st.active_cancels sid2 :=
  ⟨lookupToken_removeToken_self sid st.active_cancels, rfl,
   fun sid2 h => lookupToken_removeToken_other sid sid2 h st.active_cancels⟩

/-- C6 witness: a concrete two-session state. -/
theorem C6_end_run_unconditional_witness :
    lookupToken (end_run ⟨[("a", 1), ("b", 2)], [], 3⟩ "a").active_cancels "a"
      = none ∧
    lookupToken (end_run ⟨[("a", 1), ("b", 2)], [], 3⟩ "a").active_cancels "b"
      = lookupToken (ServerCtl.mk [("a", 1), ("b", 2)] [] 3).active_cancels "b" :=
  ⟨(C6_end_run_unconditional ⟨[("a", 1), ("b", 2)], [], 3⟩ "a").1,
   (C6_end_run_unconditional ⟨[("a", 1), ("b", 2)], [], 3⟩ "a").2.2 "b" (by decide)⟩

/-- C7, counterexample: a run whose reply generation fails terminates
with the adapter error but leaves the appended user turn in history —
the history is not what it was before the run, refuting the claimed
failure atomicity. -/
theorem C7_counterexample :
    (handle_user_audio [⟨Role.system, "s"⟩] 8 (Except.ok "hi")
        (llmFail "llm") (ttsConst [1]) false false).1
      = Except.error (PyErr.adapterError "llm") ∧
    (handle_user_audio [⟨Role.system, "s"⟩] 8 (Except.ok "hi")
        (llmFail "llm") (ttsConst [1]) false false).2
      = [⟨Role.system, "s"⟩, ⟨Role.user, "hi"⟩] := by
  decide

/-- C7 (amended): a run that fails in transcription leaves the history
unchanged; a run that fails in reply generation leaves the trimmed
history with the provisional user turn still appended; a run that fails
in synthesis leaves both the user and the assistant turn appended. -/
theorem C7_failure_history (hist : List Msg) (N : Nat) (e : PyErr) (t a : String)
    (llm : List Msg → Except PyErr String) (tts : String → Except PyErr (List Nat))
    (ht : pyStrip t ≠ "") :
    (handle_user_audio hist N (Except.error e) llm tts false false).2 = hist ∧
    (llm (llm_prompt hist N t) = Except.error e →
      (handle_user_audio hist N (Except.ok t) llm tts false false).2
        = llm_prompt hist N t) ∧
    (llm (llm_prompt hist N t) = Except.ok a →
      tts (pyStrip a) = Except.error e →
      (handle_user_audio hist N (Except.ok t) llm tts false false).2
        = trim_history N (llm_prompt hist N t ++ [⟨Role.assistant, pyStrip a⟩])) := by
  refine ⟨by simp [handle_user_audio], ?_, ?_⟩
  · intro hfail
    simp [handle_user_audio, ht, hfail]
  · intro hok htts
    simp [handle_user_audio, ht, hok, htts]

/-- C7 witness: a concrete reply-generation failure. -/
theorem C7_failure_history_witness :
    (handle_user_audio [⟨Role.system, "s"⟩] 8 (Except.ok "hi")
        (llmFail "llm") (ttsConst [1]) false false).2
      = llm_prompt [⟨Role.system, "s"⟩] 8 "hi" :=
  (C7_failure_history [⟨Role.system, "s"⟩] 8 (PyErr.adapterError "llm") "hi" "yo"
    (llmFail "llm") (ttsConst [1]) (by decide)).2.1 rfl

/-- C8, counterexample: with max_history_turns = 0 the slice
history[-(keep - 1):] degenerates to the whole list (Python minus-zero
slice), so trimming grows the history, duplicates the system entry into
the turn list and violates the claimed bound of 2 * 0 turns. -/
theorem C8_counterexample :
    trim_history 0 [⟨Role.system, "s"⟩, ⟨Role.user, "hi"⟩]
      = [⟨Role.system, "s"⟩, ⟨Role.system, "s"⟩, ⟨Role.user, "hi"⟩] ∧
    (trim_history 0 [⟨Role.system, "s"⟩, ⟨Role.user, "hi"⟩]).tail.length = 2 := by
  decide

/-- C8 (amended): for every configured max_history_turns = N with N at
least 1, trimming a history consisting of the system entry followed by
any turn list keeps the system entry and replaces the turn list by the
suffix of its most recent 2 * N turns in their original chronological
order (dropping the oldest from the front), so the turns number at most
2 * N after every mutation. For N = 0 the claim fails (counterexample). -/
theorem C8_trim_bound_fifo (N : Nat) (s : String) (rest : List Msg) (hN : 1 ≤ N) :
    trim_history N (⟨Role.system, s⟩ :: rest)
      = ⟨Role.system, s⟩ :: rest.drop (rest.length - N * 2) ∧
    (rest.drop (rest.length - N * 2)).length ≤ N * 2 := by
  constructor
  · rcases le_or_lt rest.length (N * 2) with hle | hgt
    · rw [trim_history_of_le N _ (by simp [List.length_cons]; omega)]
      have h0 : rest.length - N * 2 = 0 := by omega
      rw [h0, List.drop_zero]
    · unfold trim_history pySliceFromNeg
      split
      · exfalso
        simp only [List.length_cons] at *
        omega
      · split
        · split
          · exfalso; omega
          · have hc : (⟨Role.system, s⟩ :: rest : List Msg).length - (1 + N * 2 - 1)
                = (rest.length - N * 2) + 1 := by
              simp only [List.length_cons]
              omega
            rw [hc, List.drop_succ_cons]
            simp
        · exfalso
          simp only [List.length_cons] at *
          omega
  · simp only [List.length_drop]
    omega

/-- C8 witness: a concrete trim at the deployed max_history_turns = 8. -/
theorem C8_trim_bound_fifo_witness :
    trim_history 8 (⟨Role.system, "s"⟩ :: [⟨Role.user, "hi"⟩, ⟨Role.assistant, "yo"⟩])
      = ⟨Role.system, "s"⟩ :: ([⟨Role.user, "hi"⟩, ⟨Role.assistant, "yo"⟩] : List Msg).drop
          (([⟨Role.user, "hi"⟩, ⟨Role.assistant, "yo"⟩] : List Msg).length - 8 * 2) ∧
    (([⟨Role.user, "hi"⟩, ⟨Role.assistant, "yo"⟩] : List Msg).drop
        (([⟨Role.user, "hi"⟩, ⟨Role.assistant, "yo"⟩] : List Msg).length - 8 * 2)).length
      ≤ 8 * 2 :=
  C8_trim_bound_fifo 8 "s" [⟨Role.user, "hi"⟩, ⟨Role.assistant, "yo"⟩] (by decide)

/-- C9, counterexample: the primary assistant's transcription adapter
fails but the fallback pipeline succeeds, and the endpoint answers with
a successful JSON response instead of an HTTP error — an adapter-stage
failure does not always produce an HTTP error response. -/
theorem C9_counterexample :
    (alina_voice_route [1] true [⟨Role.system, "s"⟩] 8
        (Except.error (PyErr.adapterError "stt")) (llmConst "yo") (ttsConst [1])
        false false "ru"
        (Except.ok "hi") (llmConst "fb") (ttsConst [2]) false false).1
      = Resp.json ⟨"hi", "fb", [2], none, false⟩ := by
  decide

/-- C9 (amended): with non-empty audio, a primary-assistant run that
completes (in particular one that ends cancelled) is answered with its
successful JSON body, which carries the top-level cancelled=true key
whenever the run was cancelled — never an HTTP error; and an HTTP error
response occurs only with status 500 and only when the fallback pipeline
itself fails, so a primary adapter failure with a successful fallback
yields a non-error response. -/
theorem C9_error_surface (audio : List Nat) (available : Bool)
    (hist : List Msg) (N : Nat)
    (stt : Except PyErr String) (llm : List Msg → Except PyErr String)
    (tts : String → Except PyErr (List Nat)) (c1 c2 : Bool) (lang : String)
    (fstt : Except PyErr String) (fllm : List Msg → Except PyErr String)
    (ftts : String → Except PyErr (List Nat)) (d1 d2 : Bool)
    (haudio : audio ≠ []) :
    (available = true →
      ∀ r h1, handle_user_audio hist N stt llm tts c1 c2 = (Except.ok r, h1) →
        (alina_voice_route audio available hist N stt llm tts c1 c2 lang
            fstt fllm ftts d1 d2).1 = Resp.json (body_of_primary r)
        ∧ (r.cancelled = true → (body_of_primary r).cancelled_key = some true)) ∧
    (∀ status detail,
      (alina_voice_route audio available hist N stt llm tts c1 c2 lang
          fstt fllm ftts d1 d2).1 = Resp.httpError status detail →
      status = 500 ∧
        ∃ e, fallback_pipeline lang fstt fllm ftts d1 d2 = Except.error e) := by
  constructor
  · intro hav r h1 hh
    subst hav
    refine ⟨by simp [alina_voice_route, haudio, hh], ?_⟩
    intro hc
    simp [body_of_primary, hc]
  · intro status detail hresp
    cases available with
    | true =>
      cases hh : handle_user_audio hist N stt llm tts c1 c2 with
      | mk res h1 =>
        cases res with
        | ok r => simp [alina_voice_route, haudio, hh] at hresp
        | error e =>
          cases hfb : fallback_pipeline lang fstt fllm ftts d1 d2 with
          | ok f => simp [alina_voice_route, haudio, hh, hfb] at hresp
          | error e2 =>
            simp only [alina_voice_route, if_neg haudio, if_pos rfl, hh, hfb] at hresp
            exact ⟨(Resp.httpError.inj hresp).1.symm, e2, rfl⟩
    | false =>
      cases hfb : fallback_pipeline lang fstt fllm ftts d1 d2 with
      | ok f => simp [alina_voice_route, haudio, hfb] at hresp
      | error e2 =>
        simp only [alina_voice_route, if_neg haudio, Bool.false_eq_true,
          if_false, hfb] at hresp
        exact ⟨(Resp.httpError.inj hresp).1.symm, e2, rfl⟩

/-- C9 witness: a concrete successful primary run answered as JSON. -/
theorem C9_error_surface_witness :
    (alina_voice_route [1] true [⟨Role.system, "s"⟩] 8 (Except.ok "hi")
        (llmConst "yo") (ttsConst [2]) false false "ru"
        (Except.ok "x") (llmConst "y") (ttsConst [3]) false false).1
      = Resp.json (body_of_primary ⟨"hi", "yo", [2], false⟩) :=
  ((C9_error_surface [1] true [⟨Role.system, "s"⟩] 8 (Except.ok "hi")
      (llmConst "yo") (ttsConst [2]) false false "ru"
      (Except.ok "x") (llmConst "y") (ttsConst [3]) false false
      (by decide)).1 rfl ⟨"hi", "yo", [2], false⟩
      [⟨Role.system, "s"⟩, ⟨Role.user, "hi"⟩, ⟨Role.assistant, "yo"⟩]
      (by decide)).1

/-- Stripping a string made entirely of whitespace yields the empty
string. -/
theorem pyStrip_of_all_space (text : String) (h : text.data.all pyIsSpace = true) :
    pyStrip text = "" := by
  unfold pyStrip
  have h1 : text.data.dropWhile pyIsSpace = [] := by
    rw [List.dropWhile_eq_nil_iff]
    intro x hx
    exact List.all_eq_true.mp h x hx
  rw [h1]
  rfl

/-- C10 (confirmed): on input text that is empty or consists only of
whitespace, tts_elevenlabs returns empty bytes immediately; the outcome
is the same for every post function, so no network request to the TTS
service is performed. -/
theorem C10_blank_tts (text : String) (post : String → Except PyErr (List Nat))
    (h : text.data.all pyIsSpace = true) :
    tts_elevenlabs post text = Except.ok [] := by
  simp [tts_elevenlabs, pyStrip_of_all_space text h]

/-- C10 witness: two spaces of input, an always-succeeding post. -/
theorem C10_blank_tts_witness :
    tts_elevenlabs (ttsConst [9]) "  " = Except.ok [] :=
  C10_blank_tts "  " (ttsConst [9]) (by decide)

end Alina
